import Mathlib

/- Verification of the cdebug local port-forwarding engine
   (cmd/portforward/portforward.go): a shallow embedding of the address
   grammar parser, the target network resolver, the strategy selector,
   the forwarder supervisor and the target lifecycle loop, with theorems
   about their behavior. -/

deriving instance DecidableEq for Except

namespace Cdebug

/-- A network attachment of the target container (docker
`EndpointSettings`): the network's name, the container's IP address on
that network (empty string models an empty `IPAddress`), and the list of
network-scoped aliases. -/
structure NetworkSettings where
  name : String
  ip : String
  aliases : List String
deriving DecidableEq, Repr

/-- Snapshot of the target container (docker `ContainerJSON`): its ID,
running state, and network attachments. The Go code iterates the
`NetworkSettings.Networks` map in unspecified order; the model fixes the
iteration order as the list order. -/
structure Target where
  id : String
  running : Bool
  networks : List NetworkSettings
deriving DecidableEq, Repr

/-- The typed error values of the engine (the `errors.New` values in the
source: `errBadLocalPort`, `errBadRemoteHost`, `errBadRemotePort`, the
multiple-network-interfaces ambiguity error, `errNoAddr`, the
`cannot derive remote host` error of `lookupTargetIP`, the
`cannot deduce target network by IP` error of `targetNetworkByIP`, and
the `target is not attached to any networks` error of
`runLocalForwarder`). -/
inductive FwdErr
  | badLocalPort
  | badRemoteHost
  | badRemotePort
  | ambiguousTarget
  | noAddr
  | cannotDeriveRemoteHost
  | cannotDeduceNetwork
  | noNetworks
deriving DecidableEq, Repr

/-- Model of Go `strings.Split(s, sep)` for a single-character separator:
splits around each occurrence of the separator. Always returns at least
one (possibly empty) token; splitting the empty string gives `[[]]`. -/
def goSplitChar (sep : Char) : List Char → List (List Char)
  | [] => [[]]
  | c :: rest =>
    match goSplitChar sep rest with
    | [] => if c = sep then [[], []] else [[c]]
    | h :: t => if c = sep then [] :: h :: t else (c :: h) :: t

/-- Split on `:` — Go `strings.Split(s, ":")` as used by `parseLocalForwarding`. -/
def goSplit (s : String) : List String :=
  (goSplitChar ':' s.data).map (fun cs => String.mk cs)

/-- Decimal value of a digit string, as Go `strconv.ParseUint(s, 10, _)`
computes it. -/
def decVal (cs : List Char) : Nat :=
  cs.foldl (fun acc c => acc * 10 + (c.toNat - 48)) 0

/-- Model of go-connections `nat.ParsePort`: the empty string parses as
port 0; otherwise the string must be all ASCII decimal digits with value
at most 65535 (`strconv.ParseUint(rawPort, 10, 16)`), else it is
rejected. In particular `"0"` and `""` are accepted. -/
def goParsePort (s : String) : Option Nat :=
  if s.data = [] then some 0
  else if (∀ c ∈ s.data, c.isDigit) ∧ decVal s.data ≤ 65535 then some (decVal s.data)
  else none

/-- The `forwarding` struct: the parsed 4-tuple. Empty fields model empty
Go strings. -/
structure Forwarding where
  localHost : String := ""
  localPort : String := ""
  remoteHost : String := ""
  remotePort : String := ""
deriving DecidableEq, Repr

/-- Loop of `unambiguousIP`: scans the attachments keeping the first
non-empty IP in `found`; a second non-empty IP is the
multiple-network-interfaces ambiguity error; if the scan ends with no
non-empty IP the result is the no-address error. -/
def unambiguousIPLoop : List NetworkSettings → String → Except FwdErr String
  | [], found => if found = "" then .error .noAddr else .ok found
  | nw :: rest, found =>
    if nw.ip = "" then unambiguousIPLoop rest found
    else if found = "" then unambiguousIPLoop rest nw.ip
    else .error .ambiguousTarget

/-- Model of `unambiguousIP`: the target's single non-empty attachment IP,
or an error. -/
def unambiguousIP (t : Target) : Except FwdErr String :=
  unambiguousIPLoop t.networks ""

/-- Loop of `lookupTargetIP`: attachments with empty IPs are skipped; a
match of the key against the attachment's IP, one of its aliases, or the
attachment name returns that attachment's IP. -/
def lookupTargetIPLoop (key : String) : List NetworkSettings → Except FwdErr String
  | [] => .error .cannotDeriveRemoteHost
  | nw :: rest =>
    if nw.ip = "" then lookupTargetIPLoop key rest
    else if nw.ip = key ∨ key ∈ nw.aliases ∨ nw.name = key then .ok nw.ip
    else lookupTargetIPLoop key rest

/-- Model of `lookupTargetIP`: resolve an IP/alias/network-name key to an
attachment IP. -/
def lookupTargetIP (t : Target) (key : String) : Except FwdErr String :=
  lookupTargetIPLoop key t.networks

/-- Model of `targetNetworkByIP`: the name of the attachment carrying the
given IP. -/
def targetNetworkByIP (t : Target) (ip : String) : Except FwdErr String :=
  match t.networks.find? (fun nw => nw.ip == ip) with
  | some nw => .ok nw.name
  | none => .error .cannotDeduceNetwork

/-- Model of `validateTarget`: the target must have at least one
attachment with a non-empty IP address. -/
def validateTarget (t : Target) : Except FwdErr Unit :=
  if ∃ nw ∈ t.networks, nw.ip ≠ "" then .ok () else .error .noAddr

/-- Result of `parseLocalForwarding`. The `panics` value marks an
out-of-bounds token access (`parts[i]` on a too-short slice in Go); the
totality theorem shows it is unreachable. -/
inductive PResult
  | ok (f : Forwarding)
  | err (e : FwdErr)
  | panics
deriving DecidableEq, Repr

/-- Model of `parseLocalForwarding`: the address grammar parser. Splits the spec
on `:` and dispatches on the token count exactly as the Go code does:
case 1 `REMOTE_PORT`; case 2 `LOCAL_PORT:REMOTE_PORT` or
`REMOTE_HOST:REMOTE_PORT`; case 3 `LOCAL_PORT:REMOTE_HOST:REMOTE_PORT`
or `LOCAL_HOST:LOCAL_PORT:REMOTE_PORT`; every other count falls into the
final branch which reads tokens 0, 1, 2, 3. -/
def parseLocalForwarding (t : Target) (spec : String) : PResult :=
  match goSplit spec with
  | [] => .panics
  | [p0] =>
    if (goParsePort p0).isNone then .err .badRemotePort
    else
      match unambiguousIP t with
      | .error e => .err e
      | .ok _ => .ok { remotePort := p0 }
  | [p0, p1] =>
    if (goParsePort p1).isNone then .err .badRemotePort
    else if (goParsePort p0).isSome then
      match unambiguousIP t with
      | .error e => .err e
      | .ok _ => .ok { localPort := p0, remotePort := p1 }
    else .ok { remoteHost := p0, remotePort := p1 }
  | [p0, p1, p2] =>
    if (goParsePort p2).isNone then .err .badRemotePort
    else if (goParsePort p0).isSome then
      if p1 = "" then .err .badRemoteHost
      else .ok { localPort := p0, remoteHost := p1, remotePort := p2 }
    else
      match unambiguousIP t with
      | .error e => .err e
      | .ok _ => .ok { localHost := p0, localPort := p1, remotePort := p2 }
  | p0 :: p1 :: p2 :: p3 :: _ =>
    if (goParsePort p1).isNone ∧ p1 ≠ "" then .err .badLocalPort
    else if (goParsePort p3).isNone then .err .badRemotePort
    else .ok { localHost := p0, localPort := p1, remoteHost := p2, remotePort := p3 }

/-- Result of `parseLocalForwardings` over a whole spec list. -/
inductive PsResult
  | ok (fs : List Forwarding)
  | err (e : FwdErr)
  | panics
deriving DecidableEq, Repr

/-- Model of `parseLocalForwardings`: parse every `-L` value in order,
aborting on the first error. -/
def parseLocalForwardings (t : Target) : List String → PsResult
  | [] => .ok []
  | spec :: rest =>
    match parseLocalForwarding t spec with
    | .panics => .panics
    | .err e => .err e
    | .ok f =>
      match parseLocalForwardings t rest with
      | .panics => .panics
      | .err e => .err e
      | .ok fs => .ok (f :: fs)

/-- The `directForwarding` struct: a Direct plan. -/
structure DirectForwarding where
  fwd : Forwarding
  targetNetwork : String
deriving DecidableEq, Repr

/-- The `sidecarForwarding` struct: a Sidecar plan; `sidecarPort` is
filled in only after the inner proxy starts. -/
structure SidecarForwarding where
  fwd : Forwarding
  targetID : String
  targetNetwork : String
  targetHost : String
  sidecarPort : String := ""
deriving DecidableEq, Repr

/-- A resolved forwarding plan: Direct or Sidecar. -/
inductive Plan
  | direct (d : DirectForwarding)
  | sidecar (sc : SidecarForwarding)
deriving DecidableEq, Repr

/-- The `localHost` defaulting at the top of `runLocalForwarder`: an
empty local host becomes `127.0.0.1`. -/
def defaultLocalHost (f : Forwarding) : Forwarding :=
  if f.localHost = "" then { f with localHost := "127.0.0.1" } else f

/-- The strategy-selection logic of `runLocalForwarder` after the
localHost defaulting: empty remote host resolves via `unambiguousIP` to
a Direct plan; a remote host that `lookupTargetIP` resolves gives a
Direct plan against the matched IP/network; otherwise a Sidecar plan
against the first attachment with a non-empty IP (the Go code picks one
from the unordered map; the model picks the first in list order). -/
def selectStrategyAux (t : Target) (f : Forwarding) : Except FwdErr Plan :=
  if f.remoteHost = "" then
    match unambiguousIP t with
    | .error e => .error e
    | .ok remoteIP =>
      match targetNetworkByIP t remoteIP with
      | .error e => .error e
      | .ok network =>
        .ok (.direct ⟨⟨f.localHost, f.localPort, remoteIP, f.remotePort⟩, network⟩)
  else
    match lookupTargetIP t f.remoteHost with
    | .ok remoteIP =>
      match targetNetworkByIP t remoteIP with
      | .error e => .error e
      | .ok network =>
        .ok (.direct ⟨⟨f.localHost, f.localPort, remoteIP, f.remotePort⟩, network⟩)
    | .error _ =>
      match t.networks.find? (fun nw => !(nw.ip == "")) with
      | some nw => .ok (.sidecar ⟨f, t.id, nw.name, nw.ip, ""⟩)
      | none => .error .noNetworks

/-- Full strategy selection of `runLocalForwarder`: default the local
host to `127.0.0.1`, then pick a Direct or Sidecar plan. -/
def selectStrategy (t : Target) (f0 : Forwarding) : Except FwdErr Plan :=
  selectStrategyAux t (defaultLocalHost f0)

/-- The aggregation of `startLocalForwarders`: the supervisor goroutine
records in `errored` whether any forwarder goroutine returned an error
(the fold models the flag updates), joins all of them (`wg.Wait()` — the
model consumes the outcome of every goroutine before producing the
result), and then sends exactly one aggregated error, or nothing, on the
done channel. -/
def startLocalForwarders (outcomes : List (Option FwdErr)) : Option String :=
  let errored := outcomes.foldl (fun acc o => acc || o.isSome) false
  if errored then some "one or more forwarders failed" else none

/-- Result of one `client.ContainerInspect` call made by the docker
daemon: the container snapshot, or an error. -/
inductive InspectResult
  | ok (t : Target)
  | err (msg : String)
deriving DecidableEq, Repr

/-- Message of the Go context error that an HTTP request made under an
already-expired context fails with: `net/http` returns `ctx.Err()` from
its `ctx.Done()` check before dialing. -/
def ctxDeadlineExceeded : String := "context deadline exceeded"

/-- Top-level command errors surfaced by `runLocalPortForwarding`. -/
inductive CmdErr
  | notRunning (timeout : Nat)
  | inspectErr (msg : String)
  | specErr (e : FwdErr)
  | parsePanic
  | forwardersFailed
deriving DecidableEq, Repr

/-- Loop of `getRunningTarget`. Each iteration calls
`client.ContainerInspect` under the `context.WithTimeout` context
(`fuel` is the number of 100 ms polling intervals left until its
deadline): with the deadline already passed — in particular, always,
when the configured timeout is zero — the request deterministically
fails with the context error before reaching the daemon; an inspection
error is returned as is (`if err != nil { return cont, err }`); a
running target is returned; otherwise the `select` between `ctx.Done()`
and a 100 ms sleep either stops with the `target is not running after
<timeout>` error when the deadline falls within the sleep, or polls
again. The daemon's answer to the `i`-th poll is `inspect i`. -/
def getRunningTargetLoop (inspect : Nat → InspectResult) (timeout : Nat) :
    Nat → Nat → Except CmdErr Target
  | _, 0 => .error (.inspectErr ctxDeadlineExceeded)
  | i, f + 1 =>
    match inspect i with
    | .err msg => .error (.inspectErr msg)
    | .ok c =>
      if c.running then .ok c
      else if f = 0 then .error (.notRunning timeout)
      else getRunningTargetLoop inspect timeout (i + 1) f

/-- Model of `getRunningTarget` with the timeout measured in 100 ms
polling intervals: the deadline of the `context.WithTimeout` context is
`timeout` intervals away when the first inspection is made, so a zero
timeout starts with the context already expired. -/
def getRunningTarget (inspect : Nat → InspectResult) (timeout : Nat) : Except CmdErr Target :=
  getRunningTargetLoop inspect timeout 0 timeout

/-- How one generation ends (the `select` in `runLocalPortForwarding`):
either the forwarder supervisor reported a failure, or the target left
the running state. -/
inductive GenEnd
  | fwdFailed
  | targetExited
deriving DecidableEq, Repr

/-- Number of proxy containers the generation's forwarder goroutines
create when the runtime collaborator succeeds: one per Direct plan, two
per Sidecar plan (inner proxy plus outer leg), and none for a forwarding
whose strategy selection fails before any creation. -/
def plannedContainers (t : Target) (fs : List Forwarding) : Nat :=
  (fs.map (fun f =>
    match selectStrategy t f with
    | .ok (.direct _) => 1
    | .ok (.sidecar _) => 2
    | .error _ => 0)).sum

/-- Outcome of one generation: whether the outer loop should retry
(`cont`), the error if any, whether `startLocalForwarders` was reached,
and how many proxy containers the generation creates. -/
structure GenResult where
  cont : Bool
  err : Option CmdErr
  forwardersStarted : Bool
  containers : Nat
deriving DecidableEq, Repr

/-- Model of `runLocalPortForwarding` (one generation): acquire a running
target, validate it, parse all the `-L` specs, then start the forwarders
and wait until the generation ends by a forwarder failure or by the
target leaving the running state; on target exit the zero timeout
disables the retry loop (`cont = false`), any other timeout requests a
retry. -/
def runLocalPortForwarding (timeout : Nat) (inspect : Nat → InspectResult)
    (locals : List String) (genEnd : GenEnd) : GenResult :=
  match getRunningTarget inspect timeout with
  | .error e => ⟨false, some e, false, 0⟩
  | .ok target =>
    match validateTarget target with
    | .error e => ⟨false, some (.specErr e), false, 0⟩
    | .ok _ =>
      match parseLocalForwardings target locals with
      | .panics => ⟨false, some .parsePanic, false, 0⟩
      | .err e => ⟨false, some (.specErr e), false, 0⟩
      | .ok fs =>
        match genEnd with
        | .fwdFailed => ⟨false, some .forwardersFailed, true, plannedContainers target fs⟩
        | .targetExited =>
          if timeout = 0 then ⟨false, none, true, plannedContainers target fs⟩
          else ⟨true, none, true, plannedContainers target fs⟩

/-- One iteration of the `runPortForward` loop: a generation result
either ends the command — `some outcome`, where a `none` outcome is the
clean "Forwarding's done. Exiting..." exit — or (`none`) loops into
another generation. -/
def runPortForwardStep (r : GenResult) : Option (Option CmdErr) :=
  match r.err with
  | some e => some (some e)
  | none => if r.cont then none else some none

/-- Model of the sidecar candidate-port draw
`32000 + rand.Intn(25000)` in `startLocalSidecarForwarder`: `r` is the
raw value obtained from the process-seeded random generator. The draw
consults nothing but `r` — in particular none of the target's own bound
ports. -/
def sidecarRandomPort (r : Nat) : Nat := 32000 + r % 25000

/-- The inner proxy created by `startLocalSidecarForwarder`: socat
listens on the candidate port inside the target's network namespace and
relays to `connectHost:connectPort`. -/
structure SidecarProxy where
  listenPort : Nat
  connectHost : String
  connectPort : String
deriving DecidableEq, Repr

/-- Model of `startLocalSidecarForwarder`: create the inner proxy
listening on the random candidate port and return that port. -/
def startLocalSidecarForwarder (remoteHost remotePort : String) (r : Nat) :
    SidecarProxy × Nat :=
  let p := sidecarRandomPort r
  (⟨p, remoteHost, remotePort⟩, p)

/-- The wiring of `runLocalSidecarForwarder`: the inner proxy's randomly
chosen port becomes `sidecarPort`, and the outer leg is a Direct
forwarding to `targetHost:sidecarPort`. -/
def runLocalSidecarForwarder (fwd : SidecarForwarding) (r : Nat) :
    SidecarProxy × DirectForwarding :=
  let started := startLocalSidecarForwarder fwd.fwd.remoteHost fwd.fwd.remotePort r
  (started.1,
   ⟨⟨fwd.fwd.localHost, fwd.fwd.localPort, fwd.targetHost, toString started.2⟩,
    fwd.targetNetwork⟩)

/-- A target with a single non-empty-IP attachment. -/
def tgtOneIP : Target := ⟨"tgt1", true, [⟨"net0", "10.0.0.5", []⟩]⟩

/-- A target attached to two networks, both with non-empty IPs. -/
def tgtTwoIPs : Target :=
  ⟨"tgt2", true, [⟨"net0", "10.0.0.5", []⟩, ⟨"net1", "10.0.0.6", []⟩]⟩

/-- A target with one attachment that is not running. -/
def tgtStopped : Target := ⟨"tgt3", false, [⟨"net0", "10.0.0.5", []⟩]⟩

/-- A sample single-token forwarding used to witness the strategy
trichotomy. -/
def fwdEx : Forwarding := { remotePort := "80" }

/-- The Direct plan the strategy selector produces for `fwdEx` against
`tgtOneIP`. -/
def planEx : Plan := Plan.direct ⟨⟨"127.0.0.1", "", "10.0.0.5", "80"⟩, "net0"⟩


theorem goSplitChar_ne_nil (sep : Char) (l : List Char) : goSplitChar sep l ≠ [] := by
  cases l with
  | nil => simp [goSplitChar]
  | cons c rest =>
    unfold goSplitChar
    split <;> split <;> simp_all

theorem goSplit_ne_nil (s : String) : goSplit s ≠ [] := by
  unfold goSplit
  intro h
  exact goSplitChar_ne_nil ':' s.data (List.map_eq_nil_iff.mp h)

theorem unambiguousIPLoop_found (l : List NetworkSettings) (found : String) (hf : found ≠ "") :
    unambiguousIPLoop l found =
      if l.all (fun nw => nw.ip == "") then Except.ok found
      else Except.error FwdErr.ambiguousTarget := by
  induction l with
  | nil => simp [unambiguousIPLoop, hf]
  | cons nw rest ih =>
    unfold unambiguousIPLoop
    by_cases hip : nw.ip = ""
    · simp [hip, ih]
    · simp [hip, hf]

theorem unambiguousIPLoop_start (l : List NetworkSettings) :
    unambiguousIPLoop l "" =
      match l.filter (fun nw => !(nw.ip == "")) with
      | [] => Except.error FwdErr.noAddr
      | [nw] => Except.ok nw.ip
      | _ :: _ :: _ => Except.error FwdErr.ambiguousTarget := by
  induction l with
  | nil => simp [unambiguousIPLoop]
  | cons nw rest ih =>
    unfold unambiguousIPLoop
    by_cases hip : nw.ip = ""
    · rw [if_pos hip, ih]
      have hfc : (nw :: rest).filter (fun x => !(x.ip == "")) =
          rest.filter (fun x => !(x.ip == "")) := by
        simp [List.filter_cons, hip]
      rw [hfc]
    · rw [if_neg hip, if_pos rfl, unambiguousIPLoop_found rest nw.ip hip]
      have hfc : (nw :: rest).filter (fun x => !(x.ip == "")) =
          nw :: rest.filter (fun x => !(x.ip == "")) := by
        simp [List.filter_cons, hip]
      rw [hfc]
      cases hfr : rest.filter (fun x => !(x.ip == "")) with
      | nil =>
        have hall : rest.all (fun x => x.ip == "") = true := by
          rw [List.all_eq_true]
          intro x hx
          have h2 := List.filter_eq_nil_iff.mp hfr x hx
          simpa using h2
        rw [if_pos hall]
      | cons y ys =>
        have hall : rest.all (fun x => x.ip == "") = false := by
          have hy : y ∈ rest.filter (fun x => !(x.ip == "")) := by
            rw [hfr]; exact List.mem_cons_self y ys
          rcases List.mem_filter.mp hy with ⟨hy1, hy2⟩
          rw [List.all_eq_false]
          exact ⟨y, hy1, by simpa using hy2⟩
        rw [if_neg (by simp [hall])]

theorem unambiguousIP_spec (t : Target) :
    unambiguousIP t =
      match t.networks.filter (fun nw => !(nw.ip == "")) with
      | [] => Except.error FwdErr.noAddr
      | [nw] => Except.ok nw.ip
      | _ :: _ :: _ => Except.error FwdErr.ambiguousTarget :=
  unambiguousIPLoop_start t.networks

theorem unambiguousIP_error_cases (t : Target) (e : FwdErr)
    (h : unambiguousIP t = Except.error e) :
    e = FwdErr.noAddr ∨ e = FwdErr.ambiguousTarget := by
  rw [unambiguousIP_spec] at h
  rcases hfl : t.networks.filter (fun nw => !(nw.ip == "")) with _ | ⟨y, _ | ⟨z, ys⟩⟩ <;>
    rw [hfl] at h <;> simp_all

theorem unambiguousIP_ok_iff (t : Target) :
    (∃ ip, unambiguousIP t = Except.ok ip) ↔
      (t.networks.filter (fun nw => !(nw.ip == ""))).length = 1 := by
  rw [unambiguousIP_spec]
  rcases hfl : t.networks.filter (fun nw => !(nw.ip == "")) with _ | ⟨y, _ | ⟨z, ys⟩⟩ <;>
    rw [hfl] <;> simp

theorem unambiguousIP_two (t : Target)
    (h : 2 ≤ (t.networks.filter (fun nw => !(nw.ip == ""))).length) :
    unambiguousIP t = Except.error FwdErr.ambiguousTarget := by
  rw [unambiguousIP_spec]
  rcases hfl : t.networks.filter (fun nw => !(nw.ip == "")) with _ | ⟨y, _ | ⟨z, ys⟩⟩ <;>
    rw [hfl] at h ⊢ <;> simp_all


theorem parse_one_token (t : Target) (s p0 : String) (h : goSplit s = [p0]) :
    parseLocalForwarding t s =
      if (goParsePort p0).isNone then PResult.err FwdErr.badRemotePort
      else
        match unambiguousIP t with
        | .error e => PResult.err e
        | .ok _ => PResult.ok { remotePort := p0 } := by
  unfold parseLocalForwarding
  rw [h]

theorem parse_two_tokens (t : Target) (s p0 p1 : String) (h : goSplit s = [p0, p1]) :
    parseLocalForwarding t s =
      if (goParsePort p1).isNone then PResult.err FwdErr.badRemotePort
      else if (goParsePort p0).isSome then
        match unambiguousIP t with
        | .error e => PResult.err e
        | .ok _ => PResult.ok { localPort := p0, remotePort := p1 }
      else PResult.ok { remoteHost := p0, remotePort := p1 } := by
  unfold parseLocalForwarding
  rw [h]

theorem parse_three_tokens (t : Target) (s p0 p1 p2 : String) (h : goSplit s = [p0, p1, p2]) :
    parseLocalForwarding t s =
      if (goParsePort p2).isNone then PResult.err FwdErr.badRemotePort
      else if (goParsePort p0).isSome then
        if p1 = "" then PResult.err FwdErr.badRemoteHost
        else PResult.ok { localPort := p0, remoteHost := p1, remotePort := p2 }
      else
        match unambiguousIP t with
        | .error e => PResult.err e
        | .ok _ => PResult.ok { localHost := p0, localPort := p1, remotePort := p2 } := by
  unfold parseLocalForwarding
  rw [h]

theorem parse_four_tokens (t : Target) (s p0 p1 p2 p3 : String) (rest : List String)
    (h : goSplit s = p0 :: p1 :: p2 :: p3 :: rest) :
    parseLocalForwarding t s =
      if (goParsePort p1).isNone ∧ p1 ≠ "" then PResult.err FwdErr.badLocalPort
      else if (goParsePort p3).isNone then PResult.err FwdErr.badRemotePort
      else PResult.ok { localHost := p0, localPort := p1, remoteHost := p2, remotePort := p3 } := by
  unfold parseLocalForwarding
  rw [h]


theorem parseLocalForwarding_not_panics (t : Target) (s : String) :
    parseLocalForwarding t s ≠ PResult.panics := by
  rcases hs : goSplit s with _ | ⟨p0, _ | ⟨p1, _ | ⟨p2, _ | ⟨p3, rest⟩⟩⟩⟩
  · exact absurd hs (goSplit_ne_nil s)
  · rw [parse_one_token t s p0 hs]; (repeat' split) <;> simp
  · rw [parse_two_tokens t s p0 p1 hs]; (repeat' split) <;> simp
  · rw [parse_three_tokens t s p0 p1 p2 hs]; (repeat' split) <;> simp
  · rw [parse_four_tokens t s p0 p1 p2 p3 rest hs]; (repeat' split) <;> simp

theorem err_from_unambiguous (t : Target) (e1 e : FwdErr)
    (hu : unambiguousIP t = Except.error e1) (h : e1 = e) :
    e = FwdErr.badLocalPort ∨ e = FwdErr.badRemoteHost ∨ e = FwdErr.badRemotePort ∨
      e = FwdErr.ambiguousTarget ∨ e = FwdErr.noAddr := by
  subst h
  rcases unambiguousIP_error_cases t e1 hu with h3 | h3 <;> simp [h3]

theorem parseLocalForwarding_err_cases (t : Target) (s : String) (e : FwdErr)
    (h : parseLocalForwarding t s = PResult.err e) :
    e = FwdErr.badLocalPort ∨ e = FwdErr.badRemoteHost ∨ e = FwdErr.badRemotePort ∨
      e = FwdErr.ambiguousTarget ∨ e = FwdErr.noAddr := by
  rcases hs : goSplit s with _ | ⟨p0, _ | ⟨p1, _ | ⟨p2, _ | ⟨p3, rest⟩⟩⟩⟩
  · exact absurd hs (goSplit_ne_nil s)
  · rw [parse_one_token t s p0 hs] at h
    by_cases hp : (goParsePort p0).isNone
    · rw [if_pos hp] at h
      injection h with h2
      simp [← h2]
    · rw [if_neg hp] at h
      cases hu : unambiguousIP t with
      | error e1 =>
        rw [hu] at h
        injection h with h2
        exact err_from_unambiguous t e1 e hu h2
      | ok ip => rw [hu] at h; cases h
  · rw [parse_two_tokens t s p0 p1 hs] at h
    by_cases hp : (goParsePort p1).isNone
    · rw [if_pos hp] at h
      injection h with h2
      simp [← h2]
    · rw [if_neg hp] at h
      by_cases hq : (goParsePort p0).isSome
      · rw [if_pos hq] at h
        cases hu : unambiguousIP t with
        | error e1 =>
          rw [hu] at h
          injection h with h2
          exact err_from_unambiguous t e1 e hu h2
        | ok ip => rw [hu] at h; cases h
      · rw [if_neg hq] at h; cases h
  · rw [parse_three_tokens t s p0 p1 p2 hs] at h
    by_cases hp : (goParsePort p2).isNone
    · rw [if_pos hp] at h
      injection h with h2
      simp [← h2]
    · rw [if_neg hp] at h
      by_cases hq : (goParsePort p0).isSome
      · rw [if_pos hq] at h
        by_cases hr : p1 = ""
        · rw [if_pos hr] at h
          injection h with h2
          simp [← h2]
        · rw [if_neg hr] at h; cases h
      · rw [if_neg hq] at h
        cases hu : unambiguousIP t with
        | error e1 =>
          rw [hu] at h
          injection h with h2
          exact err_from_unambiguous t e1 e hu h2
        | ok ip => rw [hu] at h; cases h
  · rw [parse_four_tokens t s p0 p1 p2 p3 rest hs] at h
    by_cases hp : (goParsePort p1).isNone ∧ p1 ≠ ""
    · rw [if_pos hp] at h
      injection h with h2
      simp [← h2]
    · rw [if_neg hp] at h
      by_cases hq : (goParsePort p3).isNone
      · rw [if_pos hq] at h
        injection h with h2
        simp [← h2]
      · rw [if_neg hq] at h; cases h

/-- C2: for every target snapshot and every input string, the address
grammar parser returns either a forwarding 4-tuple or one of the named
typed errors (bad local port, bad remote host, bad remote port, the
ambiguous-target error, the no-address error); the out-of-bounds `panics`
outcome is unreachable. -/
theorem parseLocalForwarding_total (t : Target) (s : String) :
    (∃ f, parseLocalForwarding t s = PResult.ok f) ∨
      (∃ e, parseLocalForwarding t s = PResult.err e ∧
        (e = FwdErr.badLocalPort ∨ e = FwdErr.badRemoteHost ∨ e = FwdErr.badRemotePort ∨
          e = FwdErr.ambiguousTarget ∨ e = FwdErr.noAddr)) := by
  cases h : parseLocalForwarding t s with
  | ok f => exact Or.inl ⟨f, rfl⟩
  | err e => exact Or.inr ⟨e, rfl, parseLocalForwarding_err_cases t s e h⟩
  | panics => exact absurd h (parseLocalForwarding_not_panics t s)

/-- C9: under the precondition that target validation succeeded (some
attachment has a non-empty IP), `unambiguousIP` never returns the
no-address error: it returns either the single non-empty IP or the
multiple-network-interfaces ambiguity error. -/
theorem unambiguousIP_no_noAddr (t : Target) (h : validateTarget t = Except.ok ()) :
    (∃ ip, unambiguousIP t = Except.ok ip ∧ ip ≠ "") ∨
      unambiguousIP t = Except.error FwdErr.ambiguousTarget := by
  have hne : t.networks.filter (fun nw => !(nw.ip == "")) ≠ [] := by
    unfold validateTarget at h
    by_cases hv : ∃ nw ∈ t.networks, nw.ip ≠ ""
    · rcases hv with ⟨nw, hmem, hip⟩
      intro hnil
      have h2 := List.filter_eq_nil_iff.mp hnil nw hmem
      simp [hip] at h2
    · rw [if_neg hv] at h; cases h
  rw [unambiguousIP_spec]
  rcases hfl : t.networks.filter (fun nw => !(nw.ip == "")) with _ | ⟨y, _ | ⟨z, ys⟩⟩
  · exact absurd hfl hne
  · rw [hfl]
    left
    refine ⟨y.ip, rfl, ?_⟩
    have hy : y ∈ t.networks.filter (fun nw => !(nw.ip == "")) := by
      rw [hfl]; exact List.mem_cons_self y []
    rcases List.mem_filter.mp hy with ⟨_, hy2⟩
    simpa using hy2
  · rw [hfl]
    right; rfl

theorem unambiguousIP_no_noAddr_witness :
    validateTarget tgtOneIP = Except.ok () ∧
      ((∃ ip, unambiguousIP tgtOneIP = Except.ok ip ∧ ip ≠ "") ∨
        unambiguousIP tgtOneIP = Except.error FwdErr.ambiguousTarget) :=
  ⟨by decide, unambiguousIP_no_noAddr tgtOneIP (by decide)⟩


/-- C3 counterexample: the token `"0"` is not a valid TCP port number
(its value is 0, outside 1–65535), yet the single-token parse against a
one-IP target succeeds with remote port `"0"` — go-connections
`nat.ParsePort` accepts it. -/
theorem parse_zero_port_counterexample :
    parseLocalForwarding tgtOneIP "0" = PResult.ok { remotePort := "0" } ∧
      decVal "0".data = 0 :=
  ⟨by decide, by decide⟩

/-- C3 (amended): a single-token spec parses successfully — returning a
forwarding whose remote port is the token and all other fields empty —
iff the token passes go-connections `nat.ParsePort` (it is empty or an
all-digit string of value at most 65535, so `"0"` and `""` are accepted,
not just 1–65535) and the target has exactly one attachment with a
non-empty IP; against a target with two non-empty-IP attachments it
fails with the ambiguous-target error. -/
theorem parse_single_token_amended :
    (∀ (t : Target) (tok : String), goSplit tok = [tok] →
      (parseLocalForwarding t tok = PResult.ok { remotePort := tok } ↔
        (goParsePort tok).isSome = true ∧
          (t.networks.filter (fun nw => !(nw.ip == ""))).length = 1))
    ∧ (∀ (t : Target) (tok : String), goSplit tok = [tok] →
        (goParsePort tok).isSome = true →
        2 ≤ (t.networks.filter (fun nw => !(nw.ip == ""))).length →
        parseLocalForwarding t tok = PResult.err FwdErr.ambiguousTarget) := by
  constructor
  · intro t tok hs
    rw [parse_one_token t tok tok hs]
    constructor
    · intro h
      by_cases hp : (goParsePort tok).isNone = true
      · rw [if_pos hp] at h; cases h
      · rw [if_neg hp] at h
        cases hu : unambiguousIP t with
        | error e1 => rw [hu] at h; cases h
        | ok ip =>
          refine ⟨?_, (unambiguousIP_ok_iff t).mp ⟨ip, hu⟩⟩
          cases hq : goParsePort tok <;> simp_all
    · rintro ⟨hp, hlen⟩
      have hnp : ¬ ((goParsePort tok).isNone = true) := by
        cases hq : goParsePort tok <;> simp_all
      rw [if_neg hnp]
      rcases (unambiguousIP_ok_iff t).mpr hlen with ⟨ip, hu⟩
      rw [hu]
  · intro t tok hs hp hlen
    rw [parse_one_token t tok tok hs]
    have hnp : ¬ ((goParsePort tok).isNone = true) := by
      cases hq : goParsePort tok <;> simp_all
    rw [if_neg hnp, unambiguousIP_two t hlen]

theorem parse_single_token_amended_witness :
    parseLocalForwarding tgtOneIP "80" = PResult.ok { remotePort := "80" } ∧
      parseLocalForwarding tgtTwoIPs "80" = PResult.err FwdErr.ambiguousTarget :=
  ⟨(parse_single_token_amended.1 tgtOneIP "80" (by decide)).mpr ⟨by decide, by decide⟩,
   parse_single_token_amended.2 tgtTwoIPs "80" (by decide) (by decide) (by decide)⟩

/-- C4 counterexample: a five-token input does not fail with any
malformed-spec error (no such error exists in the code) — it parses
successfully, silently dropping the fifth token. -/
theorem parse_five_tokens_counterexample :
    (goSplit "h:80:r:90:x").length = 5 ∧
      parseLocalForwarding tgtOneIP "h:80:r:90:x" =
        PResult.ok { localHost := "h", localPort := "80", remoteHost := "r", remotePort := "90" } :=
  ⟨by decide, by decide⟩

/-- C4 (amended): an input of five or more tokens is handled by the
4-token branch applied to the first four tokens, the extra tokens being
ignored: it fails with bad-local-port if token 2 is non-empty and not a
port, with bad-remote-port if token 4 is not a port, and otherwise
succeeds; there is no malformed-spec error. -/
theorem parse_extra_tokens_amended (t : Target) (s : String)
    (p0 p1 p2 p3 r0 : String) (rest : List String)
    (h : goSplit s = p0 :: p1 :: p2 :: p3 :: r0 :: rest) :
    parseLocalForwarding t s =
      if (goParsePort p1).isNone ∧ p1 ≠ "" then PResult.err FwdErr.badLocalPort
      else if (goParsePort p3).isNone then PResult.err FwdErr.badRemotePort
      else PResult.ok { localHost := p0, localPort := p1, remoteHost := p2, remotePort := p3 } := by
  unfold parseLocalForwarding
  rw [h]

theorem parse_extra_tokens_amended_witness :
    parseLocalForwarding tgtOneIP "a:1:b:2:c:d" =
      PResult.ok { localHost := "a", localPort := "1", remoteHost := "b", remotePort := "2" } := by
  rw [parse_extra_tokens_amended tgtOneIP "a:1:b:2:c:d" "a" "1" "b" "2" "c" ["d"] (by decide)]
  decide

/-- C10: in the 3-token form whose first token does not parse as a port
(`LOCAL_HOST:LOCAL_PORT:REMOTE_PORT`), the middle token is accepted
without any validation — parsing succeeds for every middle token given a
valid third-token port and an unambiguous target IP — and the
bad-local-port error is only ever produced by the 4-token branch, i.e.
for inputs of at least four tokens. -/
theorem parse_middle_token_unvalidated :
    (∀ (t : Target) (s p0 p1 p2 : String), goSplit s = [p0, p1, p2] →
      goParsePort p0 = none → (goParsePort p2).isSome = true →
      (∃ ip, unambiguousIP t = Except.ok ip) →
      parseLocalForwarding t s = PResult.ok { localHost := p0, localPort := p1, remotePort := p2 })
    ∧ (∀ (t : Target) (s : String),
        parseLocalForwarding t s = PResult.err FwdErr.badLocalPort →
        4 ≤ (goSplit s).length) := by
  constructor
  · rintro t s p0 p1 p2 hs hp0 hp2 ⟨ip, hu⟩
    rw [parse_three_tokens t s p0 p1 p2 hs]
    have h2 : ¬ ((goParsePort p2).isNone = true) := by
      cases hq : goParsePort p2 <;> simp_all
    rw [if_neg h2]
    have h0 : ¬ ((goParsePort p0).isSome = true) := by simp [hp0]
    rw [if_neg h0, hu]
  · intro t s h
    rcases hs : goSplit s with _ | ⟨p0, _ | ⟨p1, _ | ⟨p2, _ | ⟨p3, rest⟩⟩⟩⟩
    · exact absurd hs (goSplit_ne_nil s)
    · exfalso
      rw [parse_one_token t s p0 hs] at h
      by_cases hp : (goParsePort p0).isNone = true
      · rw [if_pos hp] at h; simp at h
      · rw [if_neg hp] at h
        cases hu : unambiguousIP t with
        | error e1 =>
          rw [hu] at h
          injection h with h2
          subst h2
          rcases unambiguousIP_error_cases t _ hu with h3 | h3 <;> simp at h3
        | ok ip => rw [hu] at h; cases h
    · exfalso
      rw [parse_two_tokens t s p0 p1 hs] at h
      by_cases hp : (goParsePort p1).isNone = true
      · rw [if_pos hp] at h; simp at h
      · rw [if_neg hp] at h
        by_cases hq : (goParsePort p0).isSome = true
        · rw [if_pos hq] at h
          cases hu : unambiguousIP t with
          | error e1 =>
            rw [hu] at h
            injection h with h2
            subst h2
            rcases unambiguousIP_error_cases t _ hu with h3 | h3 <;> simp at h3
          | ok ip => rw [hu] at h; cases h
        · rw [if_neg hq] at h; cases h
    · exfalso
      rw [parse_three_tokens t s p0 p1 p2 hs] at h
      by_cases hp : (goParsePort p2).isNone = true
      · rw [if_pos hp] at h; simp at h
      · rw [if_neg hp] at h
        by_cases hq : (goParsePort p0).isSome = true
        · rw [if_pos hq] at h
          by_cases hr : p1 = ""
          · rw [if_pos hr] at h; simp at h
          · rw [if_neg hr] at h; cases h
        · rw [if_neg hq] at h
          cases hu : unambiguousIP t with
          | error e1 =>
            rw [hu] at h
            injection h with h2
            subst h2
            rcases unambiguousIP_error_cases t _ hu with h3 | h3 <;> simp at h3
          | ok ip => rw [hu] at h; cases h
    · simp only [List.length_cons]
      omega

theorem parse_middle_token_unvalidated_witness :
    parseLocalForwarding tgtOneIP "myhost:xyz:80" =
      PResult.ok { localHost := "myhost", localPort := "xyz", remotePort := "80" } :=
  parse_middle_token_unvalidated.1 tgtOneIP "myhost:xyz:80" "myhost" "xyz" "80"
    (by decide) (by decide) (by decide) ⟨"10.0.0.5", by decide⟩

theorem defaultLocalHost_localPort (f : Forwarding) :
    (defaultLocalHost f).localPort = f.localPort := by
  unfold defaultLocalHost; split <;> rfl

theorem defaultLocalHost_remoteHost (f : Forwarding) :
    (defaultLocalHost f).remoteHost = f.remoteHost := by
  unfold defaultLocalHost; split <;> rfl

theorem defaultLocalHost_remotePort (f : Forwarding) :
    (defaultLocalHost f).remotePort = f.remotePort := by
  unfold defaultLocalHost; split <;> rfl

theorem selectStrategyAux_cases (t : Target) (f : Forwarding) (p : Plan)
    (h : selectStrategyAux t f = Except.ok p) :
    (f.remoteHost = "" ∧ ∃ ip network, unambiguousIP t = Except.ok ip ∧
        targetNetworkByIP t ip = Except.ok network ∧
        p = Plan.direct ⟨⟨f.localHost, f.localPort, ip, f.remotePort⟩, network⟩)
    ∨ (f.remoteHost ≠ "" ∧ ∃ ip network, lookupTargetIP t f.remoteHost = Except.ok ip ∧
        targetNetworkByIP t ip = Except.ok network ∧
        p = Plan.direct ⟨⟨f.localHost, f.localPort, ip, f.remotePort⟩, network⟩)
    ∨ (f.remoteHost ≠ "" ∧ (∀ ip, lookupTargetIP t f.remoteHost ≠ Except.ok ip) ∧
        ∃ nw ∈ t.networks, nw.ip ≠ "" ∧
          p = Plan.sidecar ⟨f, t.id, nw.name, nw.ip, ""⟩) := by
  unfold selectStrategyAux at h
  by_cases hr : f.remoteHost = ""
  · rw [if_pos hr] at h
    left
    cases hu : unambiguousIP t with
    | error e =>
      simp only [hu] at h
      exact Except.noConfusion h
    | ok ip =>
      simp only [hu] at h
      cases hn : targetNetworkByIP t ip with
      | error e =>
        simp only [hn] at h
        exact Except.noConfusion h
      | ok network =>
        simp only [hn] at h
        injection h with h2
        exact ⟨hr, ip, network, rfl, hn, h2.symm⟩
  · rw [if_neg hr] at h
    cases hl : lookupTargetIP t f.remoteHost with
    | ok ip =>
      simp only [hl] at h
      cases hn : targetNetworkByIP t ip with
      | error e =>
        simp only [hn] at h
        exact Except.noConfusion h
      | ok network =>
        simp only [hn] at h
        injection h with h2
        exact Or.inr (Or.inl ⟨hr, ip, network, rfl, hn, h2.symm⟩)
    | error e =>
      simp only [hl] at h
      cases hf : t.networks.find? (fun nw => !(nw.ip == "")) with
      | none =>
        simp only [hf] at h
        exact Except.noConfusion h
      | some nw =>
        simp only [hf] at h
        injection h with h2
        refine Or.inr (Or.inr ⟨hr, ?_, nw, List.mem_of_find?_eq_some hf, ?_, h2.symm⟩)
        · intro ip hip
          cases hip
        · have h3 := List.find?_some hf
          simpa using h3

/-- C1: whenever the strategy selector returns a plan, it is exactly one
of: remote host empty — a Direct plan against the target's single
unambiguous IP and its network; remote host matched by `lookupTargetIP`
(IP, alias, or attachment name) — a Direct plan against the matched
IP/network; otherwise — a Sidecar plan whose target host is some network
attachment with a non-empty IP. In particular, remote host `"127.0.0.1"`
against a target whose attachment IPs are `10.0.0.5`/`10.0.0.6` selects
Sidecar, and a remote host equal to the target's own IP `10.0.0.6`
selects Direct. -/
theorem selectStrategy_trichotomy :
    (∀ (t : Target) (f0 : Forwarding) (p : Plan), selectStrategy t f0 = Except.ok p →
      (f0.remoteHost = "" ∧ ∃ ip network, unambiguousIP t = Except.ok ip ∧
          targetNetworkByIP t ip = Except.ok network ∧
          p = Plan.direct ⟨⟨(defaultLocalHost f0).localHost, f0.localPort, ip, f0.remotePort⟩,
            network⟩)
      ∨ (f0.remoteHost ≠ "" ∧ ∃ ip network, lookupTargetIP t f0.remoteHost = Except.ok ip ∧
          targetNetworkByIP t ip = Except.ok network ∧
          p = Plan.direct ⟨⟨(defaultLocalHost f0).localHost, f0.localPort, ip, f0.remotePort⟩,
            network⟩)
      ∨ (f0.remoteHost ≠ "" ∧ (∀ ip, lookupTargetIP t f0.remoteHost ≠ Except.ok ip) ∧
          ∃ nw ∈ t.networks, nw.ip ≠ "" ∧
            p = Plan.sidecar ⟨defaultLocalHost f0, t.id, nw.name, nw.ip, ""⟩))
    ∧ (∃ sc, selectStrategy tgtTwoIPs { remoteHost := "127.0.0.1", remotePort := "80" } =
        Except.ok (Plan.sidecar sc))
    ∧ (∃ d, selectStrategy tgtTwoIPs { remoteHost := "10.0.0.6", remotePort := "80" } =
        Except.ok (Plan.direct d)) := by
  refine ⟨?_, ⟨⟨⟨"127.0.0.1", "", "127.0.0.1", "80"⟩, "tgt2", "net0", "10.0.0.5", ""⟩, by decide⟩,
    ⟨⟨⟨"127.0.0.1", "", "10.0.0.6", "80"⟩, "net1"⟩, by decide⟩⟩
  intro t f0 p h
  have hc := selectStrategyAux_cases t (defaultLocalHost f0) p h
  rw [defaultLocalHost_remoteHost, defaultLocalHost_localPort, defaultLocalHost_remotePort] at hc
  exact hc

theorem selectStrategy_trichotomy_witness :
    (fwdEx.remoteHost = "" ∧ ∃ ip network, unambiguousIP tgtOneIP = Except.ok ip ∧
        targetNetworkByIP tgtOneIP ip = Except.ok network ∧
        planEx = Plan.direct ⟨⟨(defaultLocalHost fwdEx).localHost, fwdEx.localPort, ip,
          fwdEx.remotePort⟩, network⟩)
    ∨ (fwdEx.remoteHost ≠ "" ∧ ∃ ip network, lookupTargetIP tgtOneIP fwdEx.remoteHost = Except.ok ip ∧
        targetNetworkByIP tgtOneIP ip = Except.ok network ∧
        planEx = Plan.direct ⟨⟨(defaultLocalHost fwdEx).localHost, fwdEx.localPort, ip,
          fwdEx.remotePort⟩, network⟩)
    ∨ (fwdEx.remoteHost ≠ "" ∧ (∀ ip, lookupTargetIP tgtOneIP fwdEx.remoteHost ≠ Except.ok ip) ∧
        ∃ nw ∈ tgtOneIP.networks, nw.ip ≠ "" ∧
          planEx = Plan.sidecar ⟨defaultLocalHost fwdEx, tgtOneIP.id, nw.name, nw.ip, ""⟩) :=
  selectStrategy_trichotomy.1 tgtOneIP fwdEx planEx (by decide)

theorem foldl_or_outcomes (outcomes : List (Option FwdErr)) (b : Bool) :
    outcomes.foldl (fun acc o => acc || o.isSome) b =
      (b || outcomes.any (fun o => o.isSome)) := by
  induction outcomes generalizing b with
  | nil => simp
  | cons o rest ih => simp [List.any_cons, ih, Bool.or_assoc]

/-- C5: the supervisor's aggregated result is exactly one
`one or more forwarders failed` error when at least one forwarder
goroutine returned an error, and nothing when none did; the model
consumes the outcome of every goroutine (the `wg.Wait()` join) before
producing the result. -/
theorem startLocalForwarders_aggregation :
    (∀ (outcomes : List (Option FwdErr)), (∃ o ∈ outcomes, o.isSome = true) →
      startLocalForwarders outcomes = some "one or more forwarders failed")
    ∧ (∀ (outcomes : List (Option FwdErr)), (∀ o ∈ outcomes, o = none) →
      startLocalForwarders outcomes = none) := by
  constructor
  · intro outcomes h
    unfold startLocalForwarders
    rw [foldl_or_outcomes]
    have h2 : outcomes.any (fun o => o.isSome) = true := List.any_eq_true.mpr h
    simp [h2]
  · intro outcomes h
    unfold startLocalForwarders
    rw [foldl_or_outcomes]
    have h2 : outcomes.any (fun o => o.isSome) = false := by
      rw [List.any_eq_false]
      intro o ho
      simp [h o ho]
    simp [h2]

theorem startLocalForwarders_aggregation_witness :
    startLocalForwarders [none, some FwdErr.badRemotePort, none] =
        some "one or more forwarders failed" ∧
      startLocalForwarders [none, none, none] = none :=
  ⟨startLocalForwarders_aggregation.1 [none, some FwdErr.badRemotePort, none]
      ⟨some FwdErr.badRemotePort, by decide, by decide⟩,
   startLocalForwarders_aggregation.2 [none, none, none] (by decide)⟩

theorem getRunningTargetLoop_never (inspect : Nat → InspectResult) (timeout : Nat)
    (hnr : ∀ i, ∃ c, inspect i = InspectResult.ok c ∧ c.running = false) :
    ∀ (fuel i : Nat), fuel ≠ 0 → getRunningTargetLoop inspect timeout i fuel =
      Except.error (CmdErr.notRunning timeout) := by
  intro fuel
  induction fuel with
  | zero =>
    intro i h0
    exact absurd rfl h0
  | succ f ih =>
    intro i h0
    obtain ⟨c, hc, hr⟩ := hnr i
    by_cases hf : f = 0
    · unfold getRunningTargetLoop
      simp [hc, hr, hf]
    · unfold getRunningTargetLoop
      simp [hc, hr, hf, ih (i + 1) hf]

/-- C6 counterexample: with a zero running-timeout the command never
runs a generation, let alone exits cleanly — the timeout context of
`getRunningTarget` is already expired, so the very first
`ContainerInspect` deterministically fails with the context error, even
against a daemon that reports the target as running and a parseable spec
list: the generation result is that error with no forwarder started, and
the loop step exits with the error, not with the clean outcome. -/
theorem zero_timeout_inspect_error_counterexample :
    getRunningTarget (fun _ => InspectResult.ok tgtOneIP) 0 =
        Except.error (CmdErr.inspectErr ctxDeadlineExceeded) ∧
      runLocalPortForwarding 0 (fun _ => InspectResult.ok tgtOneIP) ["80"] GenEnd.targetExited =
        ⟨false, some (CmdErr.inspectErr ctxDeadlineExceeded), false, 0⟩ ∧
      runPortForwardStep
          (runLocalPortForwarding 0 (fun _ => InspectResult.ok tgtOneIP) ["80"]
            GenEnd.targetExited) =
        some (some (CmdErr.inspectErr ctxDeadlineExceeded)) :=
  ⟨by decide, by decide, by decide⟩

/-- C6 (amended): with a zero running-timeout the command fails at
target acquisition — the `context.WithTimeout` context is already
expired, so the first `ContainerInspect` deterministically returns the
context error, before any generation runs or forwarder is started, for
every daemon behavior; the clean zero-timeout exit path (`return false,
nil`) is unreachable. With a nonzero timeout and a target that never
re-enters the running state within it, the generation terminates with
the `target is not running after <timeout>` error and no forwarder is
started. -/
theorem runningTimeout_semantics :
    (∀ (inspect : Nat → InspectResult) (locals : List String) (genEnd : GenEnd),
      runLocalPortForwarding 0 inspect locals genEnd =
        ⟨false, some (CmdErr.inspectErr ctxDeadlineExceeded), false, 0⟩)
    ∧ (∀ (timeout : Nat) (inspect : Nat → InspectResult) (locals : List String)
        (genEnd : GenEnd),
      timeout ≠ 0 → (∀ i, ∃ c, inspect i = InspectResult.ok c ∧ c.running = false) →
      runLocalPortForwarding timeout inspect locals genEnd =
        ⟨false, some (CmdErr.notRunning timeout), false, 0⟩) := by
  constructor
  · intro inspect locals genEnd
    have hacq : getRunningTarget inspect 0 =
        Except.error (CmdErr.inspectErr ctxDeadlineExceeded) := by
      unfold getRunningTarget getRunningTargetLoop
      rfl
    simp [runLocalPortForwarding, hacq]
  · intro timeout inspect locals genEnd ht hnr
    have hacq : getRunningTarget inspect timeout = Except.error (CmdErr.notRunning timeout) := by
      unfold getRunningTarget
      exact getRunningTargetLoop_never inspect timeout hnr timeout 0 ht
    simp [runLocalPortForwarding, hacq]

theorem runningTimeout_semantics_witness :
    runLocalPortForwarding 0 (fun _ => InspectResult.ok tgtOneIP) ["80"] GenEnd.targetExited =
        ⟨false, some (CmdErr.inspectErr ctxDeadlineExceeded), false, 0⟩ ∧
      runLocalPortForwarding 3 (fun _ => InspectResult.ok tgtStopped) ["80"]
          GenEnd.targetExited =
        ⟨false, some (CmdErr.notRunning 3), false, 0⟩ :=
  ⟨runningTimeout_semantics.1 (fun _ => InspectResult.ok tgtOneIP) ["80"] GenEnd.targetExited,
   runningTimeout_semantics.2 3 (fun _ => InspectResult.ok tgtStopped) ["80"]
      GenEnd.targetExited (by decide) (fun i => ⟨tgtStopped, rfl, rfl⟩)⟩

/-- C7 counterexample: against a two-IP target, the spec list
`["h:1::90", "10.0.0.5:80"]` parses successfully — the empty remote host
of the 4-token form is not checked against the target at parse time —
and the generation starts its forwarders and creates a proxy container
for the second forwarding (containers = 1), even though the first
forwarding fails to resolve (ambiguous target) inside its forwarder
goroutine: the resolution error is not returned before container
creation, so a partial forwarding set is started. -/
theorem resolution_after_creation_counterexample :
    parseLocalForwardings tgtTwoIPs ["h:1::90", "10.0.0.5:80"] =
        PsResult.ok [⟨"h", "1", "", "90"⟩, ⟨"", "", "10.0.0.5", "80"⟩] ∧
      selectStrategy tgtTwoIPs ⟨"h", "1", "", "90"⟩ = Except.error FwdErr.ambiguousTarget ∧
      runLocalPortForwarding 10 (fun _ => InspectResult.ok tgtTwoIPs) ["h:1::90", "10.0.0.5:80"]
          GenEnd.fwdFailed =
        ⟨false, some CmdErr.forwardersFailed, true, 1⟩ :=
  ⟨by decide, by decide, by decide⟩

/-- C7 (amended): spec errors detected at parse time — malformed port,
bad remote host, and the ambiguous-target/no-address checks of the forms
that perform them — abort the generation before any proxy container is
created: if any spec in the list fails to parse, the command returns that
(first) error with no forwarder started and zero containers created.
Resolution failures of specs that parse (e.g. an empty remote host in
the 4-token form against a multi-IP target) are detected only inside the
forwarder goroutines, after container creation for the set has begun. -/
theorem parse_errors_before_creation (timeout : Nat) (inspect : Nat → InspectResult)
    (locals : List String) (genEnd : GenEnd) (target : Target) (e : FwdErr)
    (hacq : getRunningTarget inspect timeout = Except.ok target)
    (hval : validateTarget target = Except.ok ())
    (hparse : parseLocalForwardings target locals = PsResult.err e) :
    runLocalPortForwarding timeout inspect locals genEnd =
      ⟨false, some (CmdErr.specErr e), false, 0⟩ := by
  simp [runLocalPortForwarding, hacq, hval, hparse]

theorem parse_errors_before_creation_witness :
    runLocalPortForwarding 10 (fun _ => InspectResult.ok tgtOneIP) ["99999"]
        GenEnd.targetExited =
      ⟨false, some (CmdErr.specErr FwdErr.badRemotePort), false, 0⟩ :=
  parse_errors_before_creation 10 (fun _ => InspectResult.ok tgtOneIP) ["99999"]
    GenEnd.targetExited tgtOneIP FwdErr.badRemotePort (by decide) (by decide) (by decide)

/-- C8: for every sidecar forwarding and every random draw, the inner
proxy's candidate port lies in the fixed private range [32000, 56999],
the inner proxy listens on exactly that port while relaying to
`remoteHost:remotePort`, and the same candidate port is used unchanged
as the remote port of the outer Direct leg; the draw is a function of
the random value alone — nothing about the target's own bound ports is
consulted. -/
theorem sidecar_port_range (fwd : SidecarForwarding) (r : Nat) :
    32000 ≤ sidecarRandomPort r ∧ sidecarRandomPort r ≤ 56999 ∧
      (runLocalSidecarForwarder fwd r).1 =
        ⟨sidecarRandomPort r, fwd.fwd.remoteHost, fwd.fwd.remotePort⟩ ∧
      (runLocalSidecarForwarder fwd r).2.fwd.remotePort = toString (sidecarRandomPort r) := by
  refine ⟨?_, ?_, rfl, rfl⟩
  · unfold sidecarRandomPort
    omega
  · unfold sidecarRandomPort
    omega

end Cdebug
